import Mathlib

/-!
Verification development for the user-persona generator
(`persona_generator.py`): a questionnaire CSV parser, a generation client
with retry/backoff and JSON repair, a regex-based salvage parser, and a
CSV exporter. Each Python function is shallowly embedded as an executable
Lean definition; strings are modelled as `List Char` (Python `str` over
the relevant ASCII fragment), machine-level concerns do not arise.
-/

namespace Personas

/-- The character `{` (written via its code point). -/
def lcb : Char := Char.ofNat 123

/-- The character `}` (written via its code point). -/
def rcb : Char := Char.ofNat 125

/-- Python `str.strip` whitespace test (ASCII fragment). -/
def isPyWs (c : Char) : Bool :=
  c == ' ' || c == '\t' || c == '\n' || c == '\r' || c == '\x0b' || c == '\x0c'

/-- Python `str.strip()` on a character list. -/
def pyStripL (cs : List Char) : List Char :=
  ((cs.dropWhile isPyWs).reverse.dropWhile isPyWs).reverse

/-- Python `str.strip()` on a string. -/
def pyStrip (s : String) : String := String.mk (pyStripL s.data)

/-- Python `str.lower()` (ASCII). -/
def pyLowerL (cs : List Char) : List Char := cs.map Char.toLower

/-- Python `str.lower()` on a string. -/
def pyLower (s : String) : String := String.mk (pyLowerL s.data)

/-- Python `str.upper()` (ASCII). -/
def pyUpperL (cs : List Char) : List Char := cs.map Char.toUpper

/-- Python `str.upper()` on a string. -/
def pyUpper (s : String) : String := String.mk (pyUpperL s.data)

/-- Does the haystack start with the needle? -/
def startsWithL : List Char → List Char → Bool
  | [], _ => true
  | _ :: _, [] => false
  | n :: ns, h :: hs => n == h && startsWithL ns hs

/-- Python substring containment `needle in hay`. -/
def subIn : List Char → List Char → Bool
  | ns, [] => ns.isEmpty
  | ns, h :: hs => startsWithL ns (h :: hs) || subIn ns hs

/-- Python `str.split(c)` for a one-character separator: always returns at
least one piece. -/
def splitOnChar (c : Char) : List Char → List (List Char)
  | [] => [[]]
  | x :: xs =>
    let r := splitOnChar c xs
    if x == c then [] :: r else (x :: r.headD []) :: r.tail

/-- Python `str.split(c, 1)`: split at the first occurrence only. -/
def splitOnceChar (c : Char) : List Char → Option (List Char × List Char)
  | [] => none
  | x :: xs =>
    if x == c then some ([], xs)
    else (splitOnceChar c xs).map (fun p => (x :: p.1, p.2))

/-- Python `str.split(sep)` for a multi-character separator (fuel-based;
fuel at least `length + 1` suffices since every step consumes a char). -/
def splitOnSub (sep : List Char) : Nat → List Char → List (List Char)
  | 0, cs => [cs]
  | f + 1, cs =>
    if sep ≠ [] && startsWithL sep cs then
      [] :: splitOnSub sep f (cs.drop sep.length)
    else
      match cs with
      | [] => [[]]
      | x :: xs =>
        let r := splitOnSub sep f xs
        (x :: r.headD []) :: r.tail

/-!  ## JSON values and a model of Python `json.loads`  -/

/-- JSON values as produced by `json.loads`: numbers keep their lexeme so
that the Python `int`/`float` distinction stays observable. -/
inductive Json where
  | null : Json
  | bool (b : Bool) : Json
  | num (lex : String) : Json
  | str (s : String) : Json
  | arr (elems : List Json) : Json
  | obj (fields : List (String × Json)) : Json
deriving Repr

/-- Assoc-list insertion with Python-`dict` semantics: an existing key is
updated in place, a new key is appended. -/
def insertJKV (kvs : List (String × Json)) (k : String) (v : Json) :
    List (String × Json) :=
  if kvs.any (fun p => p.1 == k) then
    kvs.map (fun p => if p.1 == k then (k, v) else p)
  else kvs ++ [(k, v)]

/-- JSON inter-token whitespace (as accepted by Python `json`). -/
def skipWs : List Char → List Char
  | [] => []
  | c :: cs =>
    if c == ' ' || c == '\t' || c == '\n' || c == '\r' then skipWs cs
    else c :: cs

/-- Hexadecimal digit value (code points 0-9, a-f, A-F). -/
def hexVal (c : Char) : Option Nat :=
  let n := c.toNat
  if 48 ≤ n && n ≤ 57 then some (n - 48)
  else if 97 ≤ n && n ≤ 102 then some (n - 87)
  else if 65 ≤ n && n ≤ 70 then some (n - 55)
  else none

/-- The two-character JSON string escapes, as a lookup table. -/
def escPairs : List (Char × Char) :=
  [('"', '"'), ('\\', '\\'), ('/', '/'), ('b', Char.ofNat 8),
   ('f', Char.ofNat 12), ('n', '\n'), ('r', '\r'), ('t', '\t')]

/-- JSON string escapes. -/
def escMap (c : Char) : Option Char :=
  (escPairs.find? (fun p => p.1 == c)).map (fun p => p.2)

/-- Body of a JSON string literal, after the opening quote: returns the
decoded characters and the remainder after the closing quote. -/
def pStrBody : Nat → List Char → Option (List Char × List Char)
  | 0, _ => none
  | f + 1, cs =>
    match cs with
    | [] => none
    | c :: rest =>
      if c == '"' then some ([], rest)
      else if c == '\\' then
        match rest with
        | [] => none
        | e :: rest2 =>
          if e == 'u' then
            match rest2 with
            | h1 :: h2 :: h3 :: h4 :: rest3 =>
              match hexVal h1, hexVal h2, hexVal h3, hexVal h4 with
              | some a, some b, some c2, some d =>
                (pStrBody f rest3).map
                  (fun p => (Char.ofNat (((a * 16 + b) * 16 + c2) * 16 + d) :: p.1, p.2))
              | _, _, _, _ => none
            | _ => none
          else
            match escMap e with
            | some d => (pStrBody f rest2).map (fun p => (d :: p.1, p.2))
            | none => none
      else if c.toNat < 32 then none
      else (pStrBody f rest).map (fun p => (c :: p.1, p.2))

/-- Fraction and exponent tail of a JSON number (returns lexeme tail and
remainder), mirroring the `NUMBER_RE` used by Python `json`. -/
def pNumTail (cs : List Char) : List Char × List Char :=
  let fr :=
    match cs with
    | '.' :: r =>
      let p := List.span Char.isDigit r
      if p.1.isEmpty then ([], cs) else ('.' :: p.1, p.2)
    | _ => ([], cs)
  let cs2 := fr.2
  let ex :=
    match cs2 with
    | e :: r =>
      if e == 'e' || e == 'E' then
        match r with
        | s :: r2 =>
          if s == '+' || s == '-' then
            let p := List.span Char.isDigit r2
            if p.1.isEmpty then ([], cs2) else (e :: s :: p.1, p.2)
          else
            let p := List.span Char.isDigit r
            if p.1.isEmpty then ([], cs2) else (e :: p.1, p.2)
        | [] => ([], cs2)
      else ([], cs2)
    | [] => ([], cs2)
  (fr.1 ++ ex.1, ex.2)

/-- JSON number lexeme: `-?(0|[1-9][0-9]*)(\.[0-9]+)?([eE][+-]?[0-9]+)?`. -/
def pNum (cs : List Char) : Option (List Char × List Char) :=
  let sp : List Char × List Char :=
    match cs with
    | c :: rest => if c == '-' then ([c], rest) else ([], cs)
    | [] => ([], cs)
  match sp.2 with
  | [] => none
  | d :: rest =>
    if d == '0' then
      let t := pNumTail rest
      some (sp.1 ++ [d] ++ t.1, t.2)
    else if d.isDigit then
      let p := List.span Char.isDigit rest
      let t := pNumTail p.2
      some (sp.1 ++ (d :: p.1) ++ t.1, t.2)
    else none

/-- Mode tag for the single fuel-based JSON parsing function. -/
inductive PMode where
  | val : PMode
  | objBody : PMode
  | objItems : PMode
  | arrBody : PMode
  | arrItems : PMode

/-- Recursive-descent JSON parser (one function over a mode tag so the
recursion is structural on the fuel and kernel-reducible).  `accO`/`accA`
are the object/array accumulators for the item modes. -/
def pRun : Nat → PMode → List Char → List (String × Json) → List Json →
    Option (Json × List Char)
  | 0, _, _, _, _ => none
  | f + 1, .val, cs, _, _ =>
    (match cs with
     | [] => none
     | c :: rest =>
       if c == '"' then
         (pStrBody (rest.length + 1) rest).map
           (fun p => (Json.str (String.mk p.1), p.2))
       else if c == lcb then pRun f .objBody (skipWs rest) [] []
       else if c == '[' then pRun f .arrBody (skipWs rest) [] []
       else if c == 't' then
         match rest with
         | 'r' :: 'u' :: 'e' :: r => some (Json.bool true, r)
         | _ => none
       else if c == 'f' then
         match rest with
         | 'a' :: 'l' :: 's' :: 'e' :: r => some (Json.bool false, r)
         | _ => none
       else if c == 'n' then
         match rest with
         | 'u' :: 'l' :: 'l' :: r => some (Json.null, r)
         | _ => none
       else (pNum cs).map (fun p => (Json.num (String.mk p.1), p.2)))
  | f + 1, .objBody, cs, _, _ =>
    (match cs with
     | [] => none
     | c :: rest =>
       if c == rcb then some (Json.obj [], rest)
       else pRun f .objItems cs [] [])
  | f + 1, .objItems, cs, accO, _ =>
    (match cs with
     | [] => none
     | c :: rest =>
       if c == '"' then
         match pStrBody (rest.length + 1) rest with
         | some (key, r1) =>
           (match skipWs r1 with
            | ':' :: r2 =>
              (match pRun f .val (skipWs r2) [] [] with
               | some (v, r3) =>
                 let acc2 := insertJKV accO (String.mk key) v
                 (match skipWs r3 with
                  | d :: r4 =>
                    if d == ',' then pRun f .objItems (skipWs r4) acc2 []
                    else if d == rcb then some (Json.obj acc2, r4)
                    else none
                  | [] => none)
               | none => none)
            | _ => none)
         | none => none
       else none)
  | f + 1, .arrBody, cs, _, _ =>
    (match cs with
     | [] => none
     | c :: rest =>
       if c == ']' then some (Json.arr [], rest)
       else pRun f .arrItems cs [] [])
  | f + 1, .arrItems, cs, _, accA =>
    (match pRun f .val cs [] [] with
     | some (v, r1) =>
       (match skipWs r1 with
        | d :: r2 =>
          if d == ',' then pRun f .arrItems (skipWs r2) [] (accA ++ [v])
          else if d == ']' then some (Json.arr (accA ++ [v]), r2)
          else none
        | [] => none)
     | none => none)

/-- Model of Python `json.loads` on a character list: parse one value and
require only whitespace afterwards. -/
def parseJsonL (cs : List Char) : Option Json :=
  let t := skipWs cs
  match pRun (4 * cs.length + 8) .val t [] [] with
  | some (v, rest) => if (skipWs rest).isEmpty then some v else none
  | none => none

/-- Model of Python `json.loads` on a string. -/
def parseJson (s : String) : Option Json := parseJsonL s.data

/-!  ## JSON extraction and repair (`generate_personas`, lines 186-215)  -/

/-- The fence marker with language tag. -/
def bjson : List Char := "```json".data

/-- The bare fence marker. -/
def bticks : List Char := "```".data

/-- Index of the first occurrence of `c`, or the default when absent
(models `text.find(c) if c in text else len(text)`). -/
def firstIdxOr (c : Char) (cs : List Char) (dflt : Nat) : Nat :=
  match cs.findIdx? (· == c) with
  | some i => i
  | none => dflt

/-- Lines 211-213: append the missing `\x7d` closers, judged by
counting. -/
def repairBraces (cs : List Char) : List Char :=
  if cs.count lcb > cs.count rcb then
    cs ++ List.replicate (cs.count lcb - cs.count rcb) rcb
  else cs

/-- Lines 214-215: append the missing `]` closers, judged by counting. -/
def repairBrackets (cs : List Char) : List Char :=
  if cs.count '[' > cs.count ']' then
    cs ++ List.replicate (cs.count '[' - cs.count ']') ']'
  else cs

/-- Brace/bracket completion (lines 210-215): append the missing `\x7d`
closers, then the missing `]` closers. -/
def repairChars (cs : List Char) : List Char :=
  repairBrackets (repairBraces cs)

/-- Brace/bracket completion on strings. -/
def repairJson (s : String) : String := String.mk (repairChars s.data)

/-- Markdown stripping and boundary trimming (lines 186-208): strip, cut
out a fenced block when present, then drop everything before the first
`\x7b` or `[` when the text does not already start with one. -/
def extractJsonText (raw : String) : List Char :=
  let t0 := pyStripL raw.data
  let t1 :=
    if subIn bjson t0 then
      let seg := (splitOnSub bjson (t0.length + 1) t0).getD 1 []
      pyStripL ((splitOnSub bticks (seg.length + 1) seg).headD [])
    else if subIn bticks t0 then
      match (splitOnSub bticks (t0.length + 1) t0).find?
          (fun part => subIn [lcb] part && subIn ['['] part) with
      | some part => pyStripL part
      | none => t0
    else t0
  let startsBr :=
    match t1 with
    | c :: _ => c == lcb || c == '['
    | [] => false
  if startsBr then t1
  else
    let si := min (firstIdxOr lcb t1 t1.length) (firstIdxOr '[' t1 t1.length)
    if si < t1.length then t1.drop si else t1

/-- The full extraction-plus-repair pipeline applied to the raw model
response before `json.loads`. -/
def extractAndRepair (raw : String) : List Char :=
  repairChars (extractJsonText raw)

/-- Python `f"\x7btype(x)\x7d"` for the values `json.loads` can return. -/
def typeName : Json → String
  | Json.null => "<class \x27NoneType\x27>"
  | Json.bool _ => "<class \x27bool\x27>"
  | Json.num lex =>
    if lex.data.any (fun c => c == '.' || c == 'e' || c == 'E') then
      "<class \x27float\x27>"
    else "<class \x27int\x27>"
  | Json.str _ => "<class \x27str\x27>"
  | Json.arr _ => "<class \x27list\x27>"
  | Json.obj _ => "<class \x27dict\x27>"

/-- Outcome of the inner `try` of `generate_personas` (lines 185-225)
once a non-empty text is in hand: a successfully coerced persona value, a
`json.JSONDecodeError`, or the `ValueError` for a wrong top-level type. -/
inductive ParseOutcome where
  | success (v : Json) : ParseOutcome
  | decodeError : ParseOutcome
  | formatError (ty : String) : ParseOutcome
deriving Repr

/-- Lines 186-225: extract, repair, `json.loads`, then accept a bare list
or an object keyed `personas` (defaulting to the empty list). -/
def attemptParse (raw : String) : ParseOutcome :=
  match parseJsonL (extractAndRepair raw) with
  | none => ParseOutcome.decodeError
  | some (Json.arr l) => ParseOutcome.success (Json.arr l)
  | some (Json.obj kvs) =>
    ParseOutcome.success ((kvs.lookup "personas").getD (Json.arr []))
  | some v => ParseOutcome.formatError (typeName v)

/-!  ## Regex salvage (`_parse_text_response`, lines 361-388)

The pattern is the literal regex from the source: an opening brace, then
non-brace characters interleaved with one level of nested flat brace
groups, then a closing brace.  For this pattern greedy matching is
deterministic, so the scanner below is an exact model of `re.findall`. -/

/-- Split off the longest non-brace run. -/
def spanNonBrace (cs : List Char) : List Char × List Char :=
  List.span (fun c => !(c == lcb || c == rcb)) cs

/-- Match the body of the brace-group regex after the opening brace:
returns the matched body and the remainder after the closing brace. -/
def tryMatchAux : Nat → List Char → List Char → Option (List Char × List Char)
  | 0, _, _ => none
  | f + 1, acc, cs =>
    let p := spanNonBrace cs
    let acc2 := acc ++ p.1
    match p.2 with
    | [] => none
    | c :: rest =>
      if c == rcb then some (acc2, rest)
      else
        let q := spanNonBrace rest
        match q.2 with
        | d :: rest2 =>
          if d == rcb then tryMatchAux f (acc2 ++ [lcb] ++ q.1 ++ [rcb]) rest2
          else none
        | [] => none

/-- Try the brace-group regex at the current position. -/
def tryMatch (cs : List Char) : Option (List Char × List Char) :=
  match cs with
  | c :: rest =>
    if c == lcb then
      (tryMatchAux (cs.length + 1) [] rest).map
        (fun p => (lcb :: (p.1 ++ [rcb]), p.2))
    else none
  | [] => none

/-- `re.findall` for the brace-group pattern: scan left to right, taking
non-overlapping matches. -/
def findAllBraces : Nat → List Char → List (List Char)
  | 0, _ => []
  | _ + 1, [] => []
  | f + 1, c :: rest =>
    if c == lcb then
      match tryMatch (c :: rest) with
      | some (m, r) => m :: findAllBraces f r
      | none => findAllBraces f rest
    else findAllBraces f rest

/-- Python `max(matches, key=len)`: the first candidate of maximal
length (`none` when the list is empty). -/
def pickLargest (l : List (List Char)) : Option (List Char) :=
  l.foldl
    (fun acc m =>
      match acc with
      | none => some m
      | some b => if m.length > b.length then some m else acc)
    none

/-- `_parse_text_response`: regex-extract brace-delimited candidates,
parse the largest one, and return the `personas` value / the bare list /
the empty list — never an exception. -/
def salvageParse (text : String) : Json :=
  match pickLargest (findAllBraces (text.data.length + 1) text.data) with
  | none => Json.arr []
  | some cand =>
    match parseJsonL cand with
    | some (Json.obj kvs) =>
      match kvs.lookup "personas" with
      | some v => v
      | none => Json.arr []
    | some (Json.arr l) => Json.arr l
    | _ => Json.arr []

/-!  ## The retry loop of `generate_personas` (lines 159-262)

The external model call is an oracle from the attempt index to either a
raised error message or a returned response text.  The result records the
final outcome together with the backoff sleeps performed, in order. -/

/-- One model-call outcome: `str(e)` of a raised error, or the response
text (empty text models a response without usable text). -/
inductive Attempt where
  | err (msg : String) : Attempt
  | ok (text : String) : Attempt

/-- Final outcome: the returned persona value or the raised message. -/
inductive GenOutcome where
  | personas (v : Json) : GenOutcome
  | raised (msg : String) : GenOutcome
deriving Repr

/-- Result of `generate_personas`: outcome plus backoff sleeps (seconds). -/
structure GenResult where
  outcome : GenOutcome
  sleeps : List Nat
deriving Repr

/-- The retryable-error markers of line 244. -/
def retryableMarkers : List String :=
  ["rate limit", "quota", "timeout", "503", "429", "500", "502"]

/-- Line 245: an error is retryable when its lowercased message contains
one of the markers. -/
def isRetryable (msg : String) : Bool :=
  retryableMarkers.any (fun p => subIn p.data (pyLowerL msg.data))

/-- The wrapped failure message of line 257. -/
def wrapFail (n : Nat) (msg : String) : String :=
  "Failed to generate personas after " ++ toString n ++ " attempts: " ++ msg

/-- Lines 239-257: the `except` handler.  A retryable error on a
non-final attempt sleeps `2 ^ attempt` and continues; anything else is
re-raised wrapped with the attempt count. -/
def handleErr (msg : String) (attempt maxRetries : Nat) (cont : GenResult) :
    GenResult :=
  if attempt + 1 < maxRetries && isRetryable msg then
    ⟨cont.outcome, 2 ^ attempt :: cont.sleeps⟩
  else ⟨GenOutcome.raised (wrapFail (attempt + 1) msg), []⟩

/-- The attempt loop of `generate_personas`: fuel counts the remaining
iterations of `range(max_retries)`, `attempt` is the current index. -/
def genGo (oracle : Nat → Attempt) (maxRetries : Nat) :
    Nat → Nat → GenResult
  | 0, _ => ⟨GenOutcome.raised "Failed to generate personas: Unknown error", []⟩
  | f + 1, attempt =>
    match oracle attempt with
    | Attempt.err msg =>
      handleErr msg attempt maxRetries (genGo oracle maxRetries f (attempt + 1))
    | Attempt.ok text =>
      if text = "" then
        handleErr "Empty response from API" attempt maxRetries
          (genGo oracle maxRetries f (attempt + 1))
      else
        match attemptParse text with
        | ParseOutcome.success v => ⟨GenOutcome.personas v, []⟩
        | ParseOutcome.formatError ty =>
          handleErr ("Unexpected response format: " ++ ty) attempt maxRetries
            (genGo oracle maxRetries f (attempt + 1))
        | ParseOutcome.decodeError =>
          if attempt + 1 = maxRetries then
            ⟨GenOutcome.personas (salvageParse text), []⟩
          else
            ⟨(genGo oracle maxRetries f (attempt + 1)).outcome,
             2 ^ attempt :: (genGo oracle maxRetries f (attempt + 1)).sleeps⟩

/-- `generate_personas` with an oracle for the model calls. -/
def generatePersonas (oracle : Nat → Attempt) (maxRetries : Nat) : GenResult :=
  genGo oracle maxRetries maxRetries 0

/-!  ## `QuestionnaireParser.parse` (lines 38-133)

The file is modelled as its list of lines (without trailing newlines,
which every operation below either strips or ignores).  CSV rows are
modelled by comma-splitting, the unquoted fragment of the `csv` module
that the questionnaire format uses. -/

/-- One parsed question/answer record. -/
structure QARecord where
  sectionName : String
  question : String
  answer : String
deriving Repr, DecidableEq

/-- The dictionary returned by `parse`. -/
structure ParsedData where
  clientInfo : List (String × String)
  allQa : List QARecord
  personaQa : List QARecord
deriving Repr, DecidableEq

/-- Assoc-list insertion with Python-`dict` semantics for string values. -/
def insertKV (kvs : List (String × Option String)) (k : String)
    (v : Option String) : List (String × Option String) :=
  if kvs.any (fun p => p.1 == k) then
    kvs.map (fun p => if p.1 == k then (k, v) else p)
  else kvs ++ [(k, v)]

/-- Assoc-list insertion for the metadata dictionary. -/
def insertMeta (kvs : List (String × String)) (k v : String) :
    List (String × String) :=
  if kvs.any (fun p => p.1 == k) then
    kvs.map (fun p => if p.1 == k then (k, v) else p)
  else kvs ++ [(k, v)]

/-- Lines 50-62: is this line selected as the header row?  Both literal
tokens must occur case-insensitively, the line must contain a comma, and
after comma-splitting and strip-uppercasing some field must equal exactly
`QUESTION` (or the configured name) and some field exactly `ANSWER` (or
the configured name). -/
def isHeaderLine (qCol aCol : String) (line : String) : Bool :=
  let lu := pyUpperL line.data
  let hasQ := (qCol ≠ "" && subIn (pyUpperL qCol.data) lu) ||
    subIn "QUESTION".data lu
  let hasA := (aCol ≠ "" && subIn (pyUpperL aCol.data) lu) ||
    subIn "ANSWER".data lu
  let parts := (splitOnChar ',' line.data).map (fun p => pyUpperL (pyStripL p))
  hasQ && hasA && line.data.contains ',' &&
    parts.any (fun p =>
      p = "QUESTION".data || (qCol ≠ "" && p = pyUpperL qCol.data)) &&
    parts.any (fun p =>
      p = "ANSWER".data || (aCol ≠ "" && p = pyUpperL aCol.data))

/-- The parts test alone (the claim's necessary condition for header
selection): some strip-uppercased comma field equals exactly `QUESTION`
(or the configured question column) and some equals exactly `ANSWER` (or
the configured answer column). -/
def headerPartsOk (qCol aCol : String) (line : String) : Bool :=
  let parts := (splitOnChar ',' line.data).map (fun p => pyUpperL (pyStripL p))
  parts.any (fun p =>
    p = "QUESTION".data || (qCol ≠ "" && p = pyUpperL qCol.data)) &&
  parts.any (fun p =>
    p = "ANSWER".data || (aCol ≠ "" && p = pyUpperL aCol.data))

/-- Lines 67-71: a pre-header line containing a comma contributes a
metadata entry, split at the first comma, both halves stripped. -/
def metaKV (line : String) : String × String :=
  match splitOnceChar ',' (pyStripL line.data) with
  | some p => (pyStrip (String.mk p.1), pyStrip (String.mk p.2))
  | none => (pyStrip line, "")

/-- Lines 47-71: scan for the header row, collecting metadata from every
comma-containing line seen before it (or from all lines when no header is
ever found). -/
def scanHeader (qCol aCol : String) :
    Nat → List String → List (String × String) →
    Option Nat × List (String × String)
  | _, [], meta => (none, meta)
  | i, line :: rest, meta =>
    if isHeaderLine qCol aCol line then (some i, meta)
    else if line.data.contains ',' then
      scanHeader qCol aCol (i + 1) rest
        (insertMeta meta (metaKV line).1 (metaKV line).2)
    else scanHeader qCol aCol (i + 1) rest meta

/-- A CSV data line as the `csv` module reads it: an empty line yields no
fields, otherwise the comma-separated cells. -/
def splitCsvLine (line : String) : List String :=
  if line = "" then [] else (splitOnChar ',' line.data).map String.mk

/-- Lines 91-99: resolve a configured column name against the actual
header fields, case-insensitively; the last matching field wins and an
empty configured name never matches. -/
def resolveCol (target : String) (cols : List String) : Option String :=
  cols.foldl
    (fun acc col =>
      if col ≠ "" && target ≠ "" && pyLower (pyStrip col) == pyLower target then
        some col
      else acc)
    none

/-- `csv.DictReader` row construction, field by field in order: missing
cells become `None` (restval) and duplicate fieldnames keep the value
assigned last. -/
def rowToDictAux : List (String × Option String) → List String →
    List String → List (String × Option String)
  | acc, [], _ => acc
  | acc, f :: fs, cells => rowToDictAux (insertKV acc f cells.head?) fs cells.tail

/-- `csv.DictReader` row construction. -/
def rowToDict (fields cells : List String) : List (String × Option String) :=
  rowToDictAux [] fields cells

/-- Lines 103-105: `row.get(name, '').strip()` — absent resolved name
yields the empty string, an absent key defaults to `''`, and a `None`
cell raises (`AttributeError` on `None.strip()`), modelled as `.error`. -/
def getField (dict : List (String × Option String)) :
    Option String → Except Unit String
  | none => Except.ok ""
  | some n =>
    match dict.lookup n with
    | none => Except.ok ""
    | some none => Except.error ()
    | some (some v) => Except.ok (pyStrip v)

/-- Line 122: the persona-section test — a non-empty section whose text
contains `Persona`, `Audience` or `Customer` (case-sensitively). -/
def personaMatch (s : String) : Bool :=
  s ≠ "" && (subIn "Persona".data s.data || subIn "Audience".data s.data ||
    subIn "Customer".data s.data)

/-- Lines 101-127: the data-row loop, returning `(all_qa, persona_qa)`. -/
def processRows (secCol qCol aCol : Option String) (fields : List String) :
    List String → Except Unit (List QARecord × List QARecord)
  | [] => Except.ok ([], [])
  | line :: rest =>
    if line = "" then processRows secCol qCol aCol fields rest
    else
      match getField (rowToDict fields (splitCsvLine line)) secCol with
      | Except.error e => Except.error e
      | Except.ok s =>
        match getField (rowToDict fields (splitCsvLine line)) qCol with
        | Except.error e => Except.error e
        | Except.ok q =>
          match getField (rowToDict fields (splitCsvLine line)) aCol with
          | Except.error e => Except.error e
          | Except.ok a =>
            if q = "" ∨ a = "" then processRows secCol qCol aCol fields rest
            else
              match processRows secCol qCol aCol fields rest with
              | Except.error e => Except.error e
              | Except.ok tl =>
                Except.ok
                  ((⟨if s = "" then "General" else s, q, a⟩ : QARecord) :: tl.1,
                   if personaMatch (if s = "" then "General" else s) then
                     (⟨if s = "" then "General" else s, q, a⟩ : QARecord) :: tl.2
                   else tl.2)

/-- `QuestionnaireParser.parse` on the file's lines with the configured
section/question/answer column names. -/
def parseQuestionnaire (lines : List String)
    (sectionCol questionCol answerCol : String) : Except Unit ParsedData :=
  match lines.drop ((scanHeader questionCol answerCol 0 lines []).1.getD 0) with
  | [] => Except.ok ⟨(scanHeader questionCol answerCol 0 lines []).2, [], []⟩
  | hdr :: rows =>
    match processRows (resolveCol sectionCol (splitCsvLine hdr))
        (resolveCol questionCol (splitCsvLine hdr))
        (resolveCol answerCol (splitCsvLine hdr)) (splitCsvLine hdr) rows with
    | Except.error e => Except.error e
    | Except.ok qas =>
      Except.ok ⟨(scanHeader questionCol answerCol 0 lines []).2, qas.1, qas.2⟩

/-!  ## `PersonaCSVExporter.export` (lines 391-471)

Personas arrive as decoded JSON values.  A row is the ordered list of
`(column, cell)` pairs; a cell keeps the Python value put into the row
dictionary.  Crashes of the Python code (`.get` on a non-dict, `join`
over non-strings) are modelled as errors. -/

/-- The Python exceptions `export` can raise on ill-typed personas. -/
inductive PyErr where
  | attributeError : PyErr
  | typeError : PyErr
deriving Repr, DecidableEq

/-- `d.get(k, default)` on a JSON object's field list. -/
def jGetD (kvs : List (String × Json)) (k : String) (d : Json) : Json :=
  (kvs.lookup k).getD d

/-- `'; '.join(l)`: raises `TypeError` unless every element is a string. -/
def joinSemi : List Json → Except PyErr String
  | [] => Except.ok ""
  | [Json.str s] => Except.ok s
  | Json.str s :: rest =>
    (joinSemi rest).map (fun r => s ++ "; " ++ r)
  | _ => Except.error PyErr.typeError

/-- The repeated list-or-string cell idiom of lines 431-457: a list is
semicolon-joined, any other present value passes through unchanged, an
absent value becomes the empty string. -/
def listOrStr : Option Json → Except PyErr Json
  | some (Json.arr l) => (joinSemi l).map Json.str
  | some v => Except.ok v
  | none => Except.ok (Json.str "")

/-- `client_info.get(k, '')`. -/
def ciGet (ci : List (String × String)) (k : String) : String :=
  (ci.lookup k).getD ""

/-- Lines 416-426: the demographics block — `.get` on a non-dict raises
`AttributeError`. -/
def demoBlock : Json → Except PyErr (List (String × Json))
  | Json.obj d => Except.ok
    [("Age Range", jGetD d "age_range" (Json.str "")),
     ("Gender", jGetD d "gender" (Json.str "")),
     ("Location", jGetD d "location" (Json.str "")),
     ("Income Level", jGetD d "income_level" (Json.str "")),
     ("Net Worth", jGetD d "net_worth" (Json.str "")),
     ("Education", jGetD d "education" (Json.str "")),
     ("Occupation", jGetD d "occupation" (Json.str "")),
     ("Family Status", jGetD d "family_status" (Json.str ""))]
  | _ => Except.error PyErr.attributeError

/-- Lines 429-435: the psychographics block. -/
def psychoBlock : Json → Except PyErr (List (String × Json))
  | Json.obj d =>
    match listOrStr (d.lookup "values") with
    | Except.error e => Except.error e
    | Except.ok vals =>
      match listOrStr (d.lookup "motivations") with
      | Except.error e => Except.error e
      | Except.ok mots =>
        match listOrStr (d.lookup "interests") with
        | Except.error e => Except.error e
        | Except.ok ints => Except.ok
          [("Values", vals),
           ("Motivations", mots),
           ("Lifestyle", jGetD d "lifestyle" (Json.str "")),
           ("Interests", ints)]
  | _ => Except.error PyErr.attributeError

/-- Lines 446-452: the behavior block. -/
def behaviorBlock : Json → Except PyErr (List (String × Json))
  | Json.obj d => Except.ok
    [("Research Style", jGetD d "research_style" (Json.str "")),
     ("Decision Making", jGetD d "decision_making" (Json.str "")),
     ("Communication Preferences",
       jGetD d "communication_preferences" (Json.str "")),
     ("Online Behavior", jGetD d "online_behavior" (Json.str ""))]
  | _ => Except.error PyErr.attributeError

/-- Lines 407-460: build one flattened export row from one persona. -/
def buildRow (ci : List (String × String)) : Json →
    Except PyErr (List (String × Json))
  | Json.obj p =>
    (match demoBlock (jGetD p "demographics" (Json.obj [])) with
     | Except.error e => Except.error e
     | Except.ok demoCells =>
       match psychoBlock (jGetD p "psychographics" (Json.obj [])) with
       | Except.error e => Except.error e
       | Except.ok psychoCells =>
         match listOrStr (p.lookup "goals") with
         | Except.error e => Except.error e
         | Except.ok goals =>
           match listOrStr (p.lookup "challenges") with
           | Except.error e => Except.error e
           | Except.ok challenges =>
             match listOrStr (p.lookup "needs") with
             | Except.error e => Except.error e
             | Except.ok needs =>
               match listOrStr (p.lookup "pain_points") with
               | Except.error e => Except.error e
               | Except.ok pains =>
                 match behaviorBlock (jGetD p "behavior" (Json.obj [])) with
                 | Except.error e => Except.error e
                 | Except.ok behaviorCells =>
                   match listOrStr (p.lookup "key_characteristics") with
                   | Except.error e => Except.error e
                   | Except.ok keyChars => Except.ok
                     ([("Client Name", Json.str (ciGet ci "Client Name")),
                       ("Product Name", Json.str (ciGet ci "Product Name")),
                       ("Persona Name", jGetD p "persona_name" (Json.str "")),
                       ("Persona Type", jGetD p "persona_type" (Json.str ""))]
                      ++ demoCells ++ psychoCells ++
                      [("Goals", goals), ("Challenges", challenges),
                       ("Needs", needs), ("Pain Points", pains)]
                      ++ behaviorCells ++
                      [("Quote", jGetD p "quote" (Json.str "")),
                       ("Key Characteristics", keyChars)]))
  | _ => Except.error PyErr.attributeError

/-- The per-persona loop of `export`, in input order, stopping at the
first raised exception. -/
def exportRows (ci : List (String × String)) :
    List Json → Except PyErr (List (List (String × Json)))
  | [] => Except.ok []
  | p :: rest =>
    match buildRow ci p with
    | Except.error e => Except.error e
    | Except.ok r =>
      match exportRows ci rest with
      | Except.error e => Except.error e
      | Except.ok rs => Except.ok (r :: rs)

/-- `PersonaCSVExporter.export`: a no-op on an empty persona list,
otherwise one flattened row per persona. -/
def exportPersonas (personas : List Json) (ci : List (String × String)) :
    Except PyErr (List (List (String × Json))) :=
  if personas.isEmpty then Except.ok []
  else exportRows ci personas

/-!  ## Auxiliary notions for stating the claims  -/

/-- Joining a string list with the two-character separator `; `. -/
def semiJoin : List String → String
  | [] => ""
  | [s] => s
  | s :: rest => s ++ "; " ++ semiJoin rest

/-- Is the value a JSON string? -/
def isStrB : Json → Bool
  | Json.str _ => true
  | _ => false

/-- Is the value a JSON object (a Python dict)? -/
def isObjB : Json → Bool
  | Json.obj _ => true
  | _ => false

/-- A leaf field value the list-or-string cell idiom handles without
raising: anything except a list with a non-string element. -/
def fieldSafe : Option Json → Bool
  | some (Json.arr l) => l.all isStrB
  | _ => true

/-- All leaf list fields read before the behavior block are join-safe. -/
def leafSafe (p : List (String × Json)) : Bool :=
  (match jGetD p "psychographics" (Json.obj []) with
   | Json.obj d =>
     fieldSafe (d.lookup "values") && fieldSafe (d.lookup "motivations") &&
       fieldSafe (d.lookup "interests")
   | _ => true) &&
  fieldSafe (p.lookup "goals") && fieldSafe (p.lookup "challenges") &&
  fieldSafe (p.lookup "needs") && fieldSafe (p.lookup "pain_points")

/-- One of the three nested-object keys is present with a non-dict value. -/
def badNested (p : List (String × Json)) : Bool :=
  (match p.lookup "demographics" with
   | some v => !isObjB v
   | none => false) ||
  (match p.lookup "psychographics" with
   | some v => !isObjB v
   | none => false) ||
  (match p.lookup "behavior" with
   | some v => !isObjB v
   | none => false)

/-- The top-level list fields and their export columns. -/
def topListFields : List (String × String) :=
  [("goals", "Goals"), ("challenges", "Challenges"), ("needs", "Needs"),
   ("pain_points", "Pain Points"), ("key_characteristics", "Key Characteristics")]

/-- The psychographics list fields and their export columns. -/
def psychoListFields : List (String × String) :=
  [("values", "Values"), ("motivations", "Motivations"),
   ("interests", "Interests")]

/-!  ## Concrete inputs used by witnesses and counterexamples  -/

/-- The spec's example scenario input file. -/
def ex9Lines : List String :=
  ["Client Name,Acme", "Product Name,Widget", "Section,Question,Answer",
   "Persona,What do users value?,Speed", "General,Favorite color?,Blue"]

/-- A file whose persona row is written in lower case. -/
def cex1Lines : List String :=
  ["Section,Question,Answer", "persona,Q1,A1"]

/-- A small file with one customer-section row and one general row. -/
def w1Lines : List String :=
  ["Section,Question,Answer", "Customer Care,Q,A", "General,Q2,A2"]

/-- A small file with an empty-answer row. -/
def w6Lines : List String :=
  ["Section,Question,Answer", "S,Q,", "S,Q2,A2"]

/-- A metadata line containing the word Questionnaire before the header. -/
def w8Lines : List String :=
  ["Questionnaire,meta", "Section,Question,Answer"]

/-- Two retryable failures, then a parseable response. -/
def orTimeout2 : Nat → Attempt :=
  fun i => if i < 2 then Attempt.err "timeout" else Attempt.ok "[]"

/-- A non-retryable authentication-style failure on every attempt. -/
def or401 : Nat → Attempt := fun _ => Attempt.err "Error 401: invalid api key"

/-- A call that succeeds but yields empty text. -/
def orEmptyText : Nat → Attempt := fun _ => Attempt.ok ""

/-- A call whose text parses to a bare integer. -/
def orIntText : Nat → Attempt := fun _ => Attempt.ok "42"

/-- A call whose text parses to a bare boolean. -/
def orBoolText : Nat → Attempt := fun _ => Attempt.ok "true"

/-- A call whose text is not JSON at all. -/
def orNoJson : Nat → Attempt := fun _ => Attempt.ok "no json here"

/-- A persona with list-valued and string-valued leaf fields. -/
def pEx7Fields : List (String × Json) :=
  [("persona_name", Json.str "Busy Ben"),
   ("psychographics", Json.obj
     [("values", Json.arr [Json.str "speed", Json.str "ease"]),
      ("lifestyle", Json.str "busy")]),
   ("goals", Json.arr [Json.str "G1", Json.str "G2"]),
   ("challenges", Json.str "just a string"),
   ("key_characteristics", Json.arr [Json.str "k1"])]

/-- A persona whose demographics value is a string instead of a dict. -/
def pBad10 : List (String × Json) := [("demographics", Json.str "35-55")]

/-- The export row `buildRow` produces for `pEx7Fields` with empty
client info. -/
def c7Row : List (String × Json) :=
  [("Client Name", Json.str ""),
   ("Product Name", Json.str ""),
   ("Persona Name", Json.str "Busy Ben"),
   ("Persona Type", Json.str ""),
   ("Age Range", Json.str ""),
   ("Gender", Json.str ""),
   ("Location", Json.str ""),
   ("Income Level", Json.str ""),
   ("Net Worth", Json.str ""),
   ("Education", Json.str ""),
   ("Occupation", Json.str ""),
   ("Family Status", Json.str ""),
   ("Values", Json.str "speed; ease"),
   ("Motivations", Json.str ""),
   ("Lifestyle", Json.str "busy"),
   ("Interests", Json.str ""),
   ("Goals", Json.str "G1; G2"),
   ("Challenges", Json.str "just a string"),
   ("Needs", Json.str ""),
   ("Pain Points", Json.str ""),
   ("Research Style", Json.str ""),
   ("Decision Making", Json.str ""),
   ("Communication Preferences", Json.str ""),
   ("Online Behavior", Json.str ""),
   ("Quote", Json.str ""),
   ("Key Characteristics", Json.str "k1")]

/-!  ## Helper lemmas  -/

/-- The brace/bracket completion appends exactly the count differences:
all missing closing braces first, then all missing closing brackets. -/
theorem repairChars_eq (cs : List Char) (a b : Nat)
    (hb : cs.count lcb = cs.count rcb + a)
    (hk : cs.count '[' = cs.count ']' + b) :
    repairChars cs = cs ++ List.replicate a rcb ++ List.replicate b ']' := by
  have hne1 : ('[' : Char) ≠ rcb := by decide
  have hne2 : (']' : Char) ≠ rcb := by decide
  have hz1 : List.count '[' (List.replicate a rcb) = 0 :=
    List.count_eq_zero.mpr (fun hmem => hne1 (List.eq_of_mem_replicate hmem))
  have hz2 : List.count ']' (List.replicate a rcb) = 0 :=
    List.count_eq_zero.mpr (fun hmem => hne2 (List.eq_of_mem_replicate hmem))
  have h1 : repairBraces cs = cs ++ List.replicate a rcb := by
    unfold repairBraces
    rcases Nat.eq_zero_or_pos a with ha | ha
    · subst ha
      rw [if_neg (by omega)]
      simp
    · rw [if_pos (by omega)]
      have ha2 : cs.count lcb - cs.count rcb = a := by omega
      rw [ha2]
  have hc1 : (cs ++ List.replicate a rcb).count '[' = cs.count '[' := by
    rw [List.count_append, hz1, Nat.add_zero]
  have hc2 : (cs ++ List.replicate a rcb).count ']' = cs.count ']' := by
    rw [List.count_append, hz2, Nat.add_zero]
  unfold repairChars repairBrackets
  rw [h1, hc1, hc2]
  rcases Nat.eq_zero_or_pos b with hb0 | hb0
  · subst hb0
    rw [if_neg (by omega)]
    simp
  · rw [if_pos (by omega)]
    have hb2 : cs.count '[' - cs.count ']' = b := by omega
    rw [hb2]

/-- A selected header line passes the exact-field parts test. -/
theorem isHeader_implies_parts (qCol aCol : String) (line : String)
    (h : isHeaderLine qCol aCol line = true) :
    headerPartsOk qCol aCol line = true := by
  unfold isHeaderLine at h
  unfold headerPartsOk
  simp only [Bool.and_eq_true] at h
  simp only [Bool.and_eq_true]
  exact ⟨h.1.2, h.2⟩

/-- A positive header scan points at a line satisfying the full header
test, at the absolute index counted from the scan's starting index. -/
theorem scanHeader_some (qCol aCol : String) :
    ∀ (lines : List String) (i0 : Nat) (meta : List (String × String))
      (i : Nat), (scanHeader qCol aCol i0 lines meta).1 = some i →
      i0 ≤ i ∧ ∃ line, lines.get? (i - i0) = some line ∧
        isHeaderLine qCol aCol line = true := by
  intro lines
  induction lines with
  | nil => intro i0 meta i h; simp [scanHeader] at h
  | cons line rest ih =>
    intro i0 meta i h
    simp only [scanHeader] at h
    by_cases hh : isHeaderLine qCol aCol line = true
    · rw [if_pos hh] at h
      simp only [Option.some.injEq] at h
      subst h
      exact ⟨Nat.le_refl _, line, by simp, hh⟩
    · rw [if_neg hh] at h
      have key : ∃ meta2, (scanHeader qCol aCol (i0 + 1) rest meta2).1 = some i := by
        by_cases hc : line.data.contains ','
        · rw [if_pos hc] at h
          exact ⟨_, h⟩
        · rw [if_neg hc] at h
          exact ⟨_, h⟩
      obtain ⟨meta2, h2⟩ := key
      obtain ⟨hle, l, hget, hl⟩ := ih (i0 + 1) meta2 i h2
      refine ⟨by omega, l, ?_, hl⟩
      have hstep : i - i0 = (i - (i0 + 1)) + 1 := by omega
      rw [hstep]
      simpa using hget

/-- In the data-row loop, `persona_qa` is exactly the keyword filter of
`all_qa`. -/
theorem processRows_filter (secCol qCol aCol : Option String)
    (fields : List String) :
    ∀ (rows : List String) (l1 l2 : List QARecord),
      processRows secCol qCol aCol fields rows = Except.ok (l1, l2) →
      l2 = l1.filter (fun qa => personaMatch qa.sectionName) := by
  intro rows
  induction rows with
  | nil =>
    intro l1 l2 h
    simp only [processRows, Except.ok.injEq, Prod.mk.injEq] at h
    rw [← h.1, ← h.2]
    simp
  | cons line rest ih =>
    intro l1 l2 h
    simp only [processRows] at h
    split at h
    · exact ih _ _ h
    · split at h
      next e he => simp at h
      next s hs =>
        split at h
        next e he => simp at h
        next q hq =>
          split at h
          next e he => simp at h
          next a ha =>
            split at h
            · exact ih _ _ h
            · split at h
              next e he => simp at h
              next tl htl =>
                simp only [Except.ok.injEq, Prod.mk.injEq] at h
                rw [← h.1, ← h.2, ih _ _ htl, List.filter_cons]

/-- In the data-row loop, every collected record has a non-empty
question and a non-empty answer. -/
theorem processRows_nonempty (secCol qCol aCol : Option String)
    (fields : List String) :
    ∀ (rows : List String) (l1 l2 : List QARecord),
      processRows secCol qCol aCol fields rows = Except.ok (l1, l2) →
      ∀ qa ∈ l1, qa.question ≠ "" ∧ qa.answer ≠ "" := by
  intro rows
  induction rows with
  | nil =>
    intro l1 l2 h
    simp only [processRows, Except.ok.injEq, Prod.mk.injEq] at h
    rw [← h.1]
    simp
  | cons line rest ih =>
    intro l1 l2 h
    simp only [processRows] at h
    split at h
    · exact ih _ _ h
    · split at h
      next e he => simp at h
      next s hs =>
        split at h
        next e he => simp at h
        next q hq =>
          split at h
          next e he => simp at h
          next a ha =>
            split at h
            · exact ih _ _ h
            next hqa =>
              split at h
              next e he => simp at h
              next tl htl =>
                simp only [Except.ok.injEq, Prod.mk.injEq] at h
                rw [← h.1]
                intro qa hqa2
                rcases List.mem_cons.mp hqa2 with hqa3 | hqa3
                · subst hqa3
                  push_neg at hqa
                  exact hqa
                · exact ih _ _ htl qa hqa3

/-!  ## Claim theorems  -/

/-- Claim C1, counterexample: a data row whose section is written
`persona` in lower case case-insensitively contains the keyword
`persona`, yet the parser leaves `persona_qa` empty (the line-122 test
`Persona in section` is case-sensitive), contradicting the claimed
case-insensitive if-and-only-if filter. -/
theorem C1_counterexample :
    parseQuestionnaire cex1Lines "Section" "Question" "Answer" =
      Except.ok ⟨[], [⟨"persona", "Q1", "A1"⟩], []⟩ ∧
    subIn "persona".data (pyLowerL "persona".data) = true ∧
    personaMatch "persona" = false :=
  ⟨rfl, rfl, rfl⟩

/-- Claim C1, amended: for every parsed questionnaire file, a Q&A record
is appended to `persona_qa` if and only if its (defaulted) section name
contains one of the substrings `Persona`, `Audience` or `Customer`
case-sensitively — that is, `persona_qa` is exactly the case-sensitive
keyword filter of `all_qa`. -/
theorem C1_theorem (lines : List String)
    (sectionCol questionCol answerCol : String) (r : ParsedData)
    (h : parseQuestionnaire lines sectionCol questionCol answerCol =
      Except.ok r) :
    r.personaQa = r.allQa.filter (fun qa => personaMatch qa.sectionName) := by
  rw [parseQuestionnaire] at h
  split at h
  · simp only [Except.ok.injEq] at h
    rw [← h]
    simp
  · split at h
    next e he => simp at h
    next qas hpr =>
      simp only [Except.ok.injEq] at h
      rw [← h]
      exact processRows_filter _ _ _ _ _ _ _ hpr

/-- Claim C1 witness: the amended filter law evaluated on a concrete
file with a `Customer Care` row and a `General` row. -/
theorem C1_witness :
    parseQuestionnaire w1Lines "Section" "Question" "Answer" =
      Except.ok ⟨[], [⟨"Customer Care", "Q", "A"⟩, ⟨"General", "Q2", "A2"⟩],
        [⟨"Customer Care", "Q", "A"⟩]⟩ ∧
    (ParsedData.mk [] [⟨"Customer Care", "Q", "A"⟩, ⟨"General", "Q2", "A2"⟩]
        [⟨"Customer Care", "Q", "A"⟩]).personaQa =
      (ParsedData.mk [] [⟨"Customer Care", "Q", "A"⟩, ⟨"General", "Q2", "A2"⟩]
        [⟨"Customer Care", "Q", "A"⟩]).allQa.filter
        (fun qa => personaMatch qa.sectionName) :=
  ⟨rfl, C1_theorem w1Lines "Section" "Question" "Answer" _ rfl⟩

/-- Claim C2, counterexample: `\x7b"a": [1` is valid JSON truncated only
by its missing trailing `]\x7d` closers (an array nested inside an
object, truncation not inside a string literal), yet the repair appends
`\x7d` before `]`, producing `\x7b"a": [1\x7d]`, which does not parse. -/
theorem C2_counterexample :
    (parseJson "\x7b\x22a\x22: [1]\x7d").isSome = true ∧
    repairJson "\x7b\x22a\x22: [1" = "\x7b\x22a\x22: [1\x7d]" ∧
    parseJson (repairJson "\x7b\x22a\x22: [1") = none :=
  ⟨rfl, rfl, rfl⟩

/-- Claim C2, amended: the repair appends all missing `\x7d` closers and
then all missing `]` closers, so a truncated text parses after repair
exactly when that closer order completes it — in particular objects
nested inside arrays are repaired, while the claim's array-inside-object
pattern is not. -/
theorem C2_theorem (s : String) (a b : Nat)
    (hb : s.data.count lcb = s.data.count rcb + a)
    (hk : s.data.count '[' = s.data.count ']' + b)
    (hp : (parseJson (s ++ String.mk (List.replicate a rcb) ++
      String.mk (List.replicate b ']'))).isSome = true) :
    (parseJson (repairJson s)).isSome = true := by
  have h := repairChars_eq s.data a b hb hk
  have hdata : (repairJson s).data =
      s.data ++ List.replicate a rcb ++ List.replicate b ']' := by
    simpa [repairJson] using h
  have hcat : (s ++ String.mk (List.replicate a rcb) ++
      String.mk (List.replicate b ']')).data =
      s.data ++ List.replicate a rcb ++ List.replicate b ']' := by
    simp
  unfold parseJson at hp ⊢
  rw [hdata, ← hcat]
  exact hp

/-- Claim C2 witness: an object nested inside an array, truncated by its
two missing closers, is repaired to parseable JSON. -/
theorem C2_witness :
    ("[\x7b\x22a\x22: 1".data.count lcb =
      "[\x7b\x22a\x22: 1".data.count rcb + 1) ∧
    ("[\x7b\x22a\x22: 1".data.count '[' =
      "[\x7b\x22a\x22: 1".data.count ']' + 1) ∧
    (parseJson (repairJson "[\x7b\x22a\x22: 1")).isSome = true :=
  ⟨by decide, by decide,
    C2_theorem "[\x7b\x22a\x22: 1" 1 1 (by decide) (by decide) (by decide)⟩

/-- Claim C6: every record the parser returns in `all_qa` (and hence in
`persona_qa`) has a non-empty question and a non-empty answer after
trimming — rows with either empty are skipped entirely. -/
theorem C6_theorem (lines : List String)
    (sectionCol questionCol answerCol : String) (r : ParsedData)
    (h : parseQuestionnaire lines sectionCol questionCol answerCol =
      Except.ok r) :
    (∀ qa ∈ r.allQa, qa.question ≠ "" ∧ qa.answer ≠ "") ∧
    (∀ qa ∈ r.personaQa, qa.question ≠ "" ∧ qa.answer ≠ "") := by
  rw [parseQuestionnaire] at h
  split at h
  · simp only [Except.ok.injEq] at h
    rw [← h]
    simp
  · split at h
    next e he => simp at h
    next qas hpr =>
      simp only [Except.ok.injEq] at h
      rw [← h]
      have hne := processRows_nonempty _ _ _ _ _ _ _ hpr
      have hfl := processRows_filter _ _ _ _ _ _ _ hpr
      refine ⟨hne, ?_⟩
      intro qa hqa
      rw [hfl] at hqa
      exact hne qa (List.mem_of_mem_filter hqa)

/-- Claim C6 witness: a concrete file containing an empty-answer row,
whose parse keeps only the fully populated rows. -/
theorem C6_witness :
    parseQuestionnaire w6Lines "Section" "Question" "Answer" =
      Except.ok ⟨[], [⟨"S", "Q2", "A2"⟩], []⟩ ∧
    ((∀ qa ∈ (ParsedData.mk [] [⟨"S", "Q2", "A2"⟩] []).allQa,
        qa.question ≠ "" ∧ qa.answer ≠ "") ∧
     (∀ qa ∈ (ParsedData.mk [] [⟨"S", "Q2", "A2"⟩] []).personaQa,
        qa.question ≠ "" ∧ qa.answer ≠ "")) :=
  ⟨rfl, C6_theorem w6Lines "Section" "Question" "Answer" _ rfl⟩

/-- Claim C8: the header detector never selects a line unless, after
splitting the line on commas and strip-uppercasing each field, some
field equals exactly `QUESTION` (or the configured question column name)
and some field equals exactly `ANSWER` (or the configured answer column
name); a metadata line containing only the word Questionnaire is
therefore never selected. -/
theorem C8_theorem (qCol aCol : String) (lines : List String) (i : Nat)
    (h : (scanHeader qCol aCol 0 lines []).1 = some i) :
    ∃ line, lines.get? i = some line ∧
      headerPartsOk qCol aCol line = true := by
  obtain ⟨-, line, hget, hl⟩ := scanHeader_some qCol aCol lines 0 [] i h
  exact ⟨line, by simpa using hget, isHeader_implies_parts _ _ _ hl⟩

/-- Claim C8 witness: on a file whose first line is Questionnaire
metadata, the detector selects the real header at index 1, which passes
the exact-field test. -/
theorem C8_witness :
    ∃ line, w8Lines.get? 1 = some line ∧
      headerPartsOk "Question" "Answer" line = true :=
  C8_theorem "Question" "Answer" w8Lines 1 rfl

/-- Claim C9: the spec's example scenario — parsing the concrete
five-line CSV with the default column names yields two `all_qa` records,
one `persona_qa` record (the `Persona` row), and the client info
`Client Name ↦ Acme`, `Product Name ↦ Widget`. -/
theorem C9_theorem :
    parseQuestionnaire ex9Lines "Section" "Question" "Answer" =
      Except.ok ⟨[("Client Name", "Acme"), ("Product Name", "Widget")],
        [⟨"Persona", "What do users value?", "Speed"⟩,
         ⟨"General", "Favorite color?", "Blue"⟩],
        [⟨"Persona", "What do users value?", "Speed"⟩]⟩ :=
  rfl

/-- Claim C3, counterexample: a successful call with empty text on the
first of three attempts does not sleep and retry — the
`Empty response from API` message matches no retryable marker, so the
generic handler re-raises it immediately, wrapped with the attempt
count, with no backoff sleep. -/
theorem C3_counterexample :
    generatePersonas orEmptyText 3 =
      ⟨GenOutcome.raised
        "Failed to generate personas after 1 attempts: Empty response from API",
       []⟩ :=
  rfl

/-- Claim C3, amended: a successful call that yields empty text raises
`ValueError` into the same exception handler as transient failures, but
its message contains no retryable marker, so on any attempt it is
re-raised immediately wrapped with the attempt count — no backoff sleep
and no further attempt. -/
theorem C3_theorem (oracle : Nat → Attempt) (maxRetries : Nat)
    (hN : 1 ≤ maxRetries) (h0 : oracle 0 = Attempt.ok "") :
    generatePersonas oracle maxRetries =
      ⟨GenOutcome.raised (wrapFail 1 "Empty response from API"), []⟩ := by
  have hr : isRetryable "Empty response from API" = false := by decide
  obtain ⟨m, rfl⟩ : ∃ m, maxRetries = m + 1 := ⟨maxRetries - 1, by omega⟩
  simp [generatePersonas, genGo, h0, handleErr, hr]

/-- Claim C3 witness: the amended behavior at a concrete oracle and a
two-attempt budget. -/
theorem C3_witness :
    generatePersonas orEmptyText 2 =
      ⟨GenOutcome.raised (wrapFail 1 "Empty response from API"), []⟩ :=
  C3_theorem orEmptyText 2 (by omega) rfl

/-- A wrong top-level JSON type never yields a retryable error message:
the `Unexpected response format` text contains no retryable marker for
any of the type names `json.loads` can produce. -/
theorem formatError_not_retryable (raw ty : String)
    (h : attemptParse raw = ParseOutcome.formatError ty) :
    isRetryable ("Unexpected response format: " ++ ty) = false := by
  unfold attemptParse at h
  cases hp : parseJsonL (extractAndRepair raw) <;> rw [hp] at h
  · simp at h
  case some v =>
    cases v with
    | null =>
      simp only [typeName] at h
      simp only [ParseOutcome.formatError.injEq] at h
      rw [← h]
      decide
    | bool b =>
      simp only [typeName] at h
      simp only [ParseOutcome.formatError.injEq] at h
      rw [← h]
      decide
    | num lex =>
      by_cases hc :
          lex.data.any (fun c => c == '.' || c == 'e' || c == 'E') = true
      · simp only [typeName, if_pos hc] at h
        simp only [ParseOutcome.formatError.injEq] at h
        rw [← h]
        decide
      · simp only [typeName, if_neg hc] at h
        simp only [ParseOutcome.formatError.injEq] at h
        rw [← h]
        decide
    | str s =>
      simp only [typeName] at h
      simp only [ParseOutcome.formatError.injEq] at h
      rw [← h]
      decide
    | arr l => simp at h
    | obj kvs => simp at h

/-- Claim C4, counterexample: text parsing to a bare integer on the
final attempt does not reach the regex salvage pass and does not return
an empty persona list — the `Unexpected response format` `ValueError`
escapes to the generic handler and is re-raised wrapped. -/
theorem C4_counterexample :
    generatePersonas orIntText 1 =
      ⟨GenOutcome.raised
        "Failed to generate personas after 1 attempts: Unexpected response format: <class \x27int\x27>",
       []⟩ :=
  rfl

/-- Claim C4, amended: only malformed JSON (`json.JSONDecodeError`)
takes the salvage path — on the final attempt the regex salvage pass
runs and total failure returns an empty persona list rather than
raising; a text that parses to a top-level value that is neither a list
nor a dict instead raises immediately, wrapped with the attempt count,
at any attempt budget. -/
theorem C4_theorem (oracle : Nat → Attempt) (text : String)
    (h0 : oracle 0 = Attempt.ok text) (hne : text ≠ "") :
    (attemptParse text = ParseOutcome.decodeError →
      generatePersonas oracle 1 =
        ⟨GenOutcome.personas (salvageParse text), []⟩) ∧
    (∀ ty maxRetries, 1 ≤ maxRetries →
      attemptParse text = ParseOutcome.formatError ty →
      generatePersonas oracle maxRetries =
        ⟨GenOutcome.raised
          (wrapFail 1 ("Unexpected response format: " ++ ty)), []⟩) := by
  constructor
  · intro hdec
    simp [generatePersonas, genGo, h0, hne, hdec]
  · intro ty maxRetries hN hfmt
    have hr := formatError_not_retryable text ty hfmt
    obtain ⟨m, rfl⟩ : ∃ m, maxRetries = m + 1 := ⟨maxRetries - 1, by omega⟩
    simp [generatePersonas, genGo, h0, hne, hfmt, handleErr, hr]

/-- Claim C4 witness: non-JSON text falls back to salvage and returns
the empty list without raising; a bare boolean raises wrapped. -/
theorem C4_witness :
    generatePersonas orNoJson 1 =
      ⟨GenOutcome.personas (salvageParse "no json here"), []⟩ ∧
    salvageParse "no json here" = Json.arr [] ∧
    generatePersonas orBoolText 2 =
      ⟨GenOutcome.raised
        (wrapFail 1 ("Unexpected response format: " ++ "<class \x27bool\x27>")),
       []⟩ :=
  ⟨(C4_theorem orNoJson "no json here" rfl (by decide)).1 rfl,
   rfl,
   (C4_theorem orBoolText "true" rfl (by decide)).2 "<class \x27bool\x27>" 2
     (by omega) rfl⟩

/-- A run of retryable failures walks the attempt loop: starting at
attempt `j`, `k` consecutive retryable errors contribute the backoff
sleeps `2 ^ j, …, 2 ^ (j + k - 1)` and hand over to attempt `j + k`. -/
theorem genGo_retryable_prefix (oracle : Nat → Attempt) (maxRetries : Nat) :
    ∀ (k j : Nat), j + k < maxRetries →
      (∀ i, j ≤ i → i < j + k →
        ∃ msg, oracle i = Attempt.err msg ∧ isRetryable msg = true) →
      genGo oracle maxRetries (maxRetries - j) j =
        ⟨(genGo oracle maxRetries (maxRetries - (j + k)) (j + k)).outcome,
         (List.range' j k).map (fun i => 2 ^ i) ++
           (genGo oracle maxRetries (maxRetries - (j + k)) (j + k)).sleeps⟩ := by
  intro k
  induction k with
  | zero =>
    intro j hj hmsg
    simp
  | succ k ih =>
    intro j hj hmsg
    obtain ⟨msg, hor, hret⟩ := hmsg j (Nat.le_refl j) (by omega)
    have hfuel : maxRetries - j = (maxRetries - (j + 1)) + 1 := by omega
    rw [hfuel]
    have hcond : (decide (j + 1 < maxRetries) && isRetryable msg) = true := by
      rw [hret]
      simp
      omega
    have ihj := ih (j + 1) (by omega)
      (fun i hi1 hi2 => hmsg i (by omega) (by omega))
    simp only [genGo, hor, handleErr, hcond, if_true]
    rw [ihj]
    have harith : j + 1 + k = j + (k + 1) := by omega
    rw [harith]
    simp [List.range'_succ]

/-- Claim C5: a model-call error whose lowercased message contains none
of the retryable markers is re-raised immediately, wrapped with the
attempt count, with no backoff sleep; a run of retryable errors instead
sleeps `2 ^ attempt` seconds per attempt, up to the configured limit,
before the loop continues. -/
theorem C5_theorem (oracle : Nat → Attempt) (maxRetries : Nat)
    (hN : 1 ≤ maxRetries) :
    (∀ msg, oracle 0 = Attempt.err msg → isRetryable msg = false →
      generatePersonas oracle maxRetries =
        ⟨GenOutcome.raised (wrapFail 1 msg), []⟩) ∧
    (∀ k, k < maxRetries →
      (∀ i, i < k →
        ∃ msg, oracle i = Attempt.err msg ∧ isRetryable msg = true) →
      generatePersonas oracle maxRetries =
        ⟨(genGo oracle maxRetries (maxRetries - k) k).outcome,
         (List.range k).map (fun i => 2 ^ i) ++
           (genGo oracle maxRetries (maxRetries - k) k).sleeps⟩) := by
  constructor
  · intro msg h0 hnr
    obtain ⟨m, rfl⟩ : ∃ m, maxRetries = m + 1 := ⟨maxRetries - 1, by omega⟩
    simp [generatePersonas, genGo, h0, handleErr, hnr]
  · intro k hk hmsg
    have hpre := genGo_retryable_prefix oracle maxRetries k 0 (by omega)
      (fun i hi1 hi2 => hmsg i (by omega))
    simpa [generatePersonas, List.range_eq_range'] using hpre

/-- Claim C5 witness: two timeouts then success sleep exactly `1, 2`
seconds and hand over to attempt 2; a 401-style error is raised at once
with no sleep. -/
theorem C5_witness :
    (∀ i, i < 2 →
      ∃ msg, orTimeout2 i = Attempt.err msg ∧ isRetryable msg = true) ∧
    generatePersonas orTimeout2 3 =
      ⟨(genGo orTimeout2 3 (3 - 2) 2).outcome,
       (List.range 2).map (fun i => 2 ^ i) ++
         (genGo orTimeout2 3 (3 - 2) 2).sleeps⟩ ∧
    generatePersonas or401 3 =
      ⟨GenOutcome.raised (wrapFail 1 "Error 401: invalid api key"), []⟩ :=
  ⟨fun i hi => ⟨"timeout", by simp [orTimeout2, hi], by decide⟩,
   (C5_theorem orTimeout2 3 (by omega)).2 2 (by omega)
     (fun i hi => ⟨"timeout", by simp [orTimeout2, hi], by decide⟩),
   (C5_theorem or401 3 (by omega)).1 "Error 401: invalid api key" rfl
     (by decide)⟩

/-- Joining a list of JSON strings with `; ` succeeds and equals the
plain string join. -/
theorem joinSemi_strs (ss : List String) :
    joinSemi (ss.map Json.str) = Except.ok (semiJoin ss) := by
  induction ss with
  | nil => rfl
  | cons s rest ih =>
    cases rest with
    | nil => rfl
    | cons s2 rest2 =>
      simp only [List.map_cons] at ih ⊢
      rw [joinSemi]
      · rw [ih]
        simp [Except.map, semiJoin]
      · simp

/-- The list-or-string cell on a list of strings yields the join. -/
theorem listOrStr_arr_strs (ss : List String) (w : Json)
    (h : listOrStr (some (Json.arr (ss.map Json.str))) = Except.ok w) :
    w = Json.str (semiJoin ss) := by
  rw [listOrStr, joinSemi_strs] at h
  simp only [Except.map, Except.ok.injEq] at h
  exact h.symm

/-- The list-or-string cell on a plain string passes it through. -/
theorem listOrStr_str (s : String) (w : Json)
    (h : listOrStr (some (Json.str s)) = Except.ok w) : w = Json.str s := by
  simp only [listOrStr, Except.ok.injEq] at h
  exact h.symm

/-- Inversion for the demographics block. -/
theorem demoBlock_inv (v : Json) (cells : List (String × Json))
    (h : demoBlock v = Except.ok cells) :
    ∃ d, v = Json.obj d ∧ cells =
      [("Age Range", jGetD d "age_range" (Json.str "")),
       ("Gender", jGetD d "gender" (Json.str "")),
       ("Location", jGetD d "location" (Json.str "")),
       ("Income Level", jGetD d "income_level" (Json.str "")),
       ("Net Worth", jGetD d "net_worth" (Json.str "")),
       ("Education", jGetD d "education" (Json.str "")),
       ("Occupation", jGetD d "occupation" (Json.str "")),
       ("Family Status", jGetD d "family_status" (Json.str ""))] := by
  cases v
  case obj d => exact ⟨d, rfl, by simpa [demoBlock] using h.symm⟩
  all_goals simp [demoBlock] at h

/-- Inversion for the behavior block. -/
theorem behaviorBlock_inv (v : Json) (cells : List (String × Json))
    (h : behaviorBlock v = Except.ok cells) :
    ∃ d, v = Json.obj d ∧ cells =
      [("Research Style", jGetD d "research_style" (Json.str "")),
       ("Decision Making", jGetD d "decision_making" (Json.str "")),
       ("Communication Preferences",
         jGetD d "communication_preferences" (Json.str "")),
       ("Online Behavior", jGetD d "online_behavior" (Json.str ""))] := by
  cases v
  case obj d => exact ⟨d, rfl, by simpa [behaviorBlock] using h.symm⟩
  all_goals simp [behaviorBlock] at h

/-- Inversion for the psychographics block. -/
theorem psychoBlock_inv (v : Json) (cells : List (String × Json))
    (h : psychoBlock v = Except.ok cells) :
    ∃ d vals mots ints, v = Json.obj d ∧
      listOrStr (d.lookup "values") = Except.ok vals ∧
      listOrStr (d.lookup "motivations") = Except.ok mots ∧
      listOrStr (d.lookup "interests") = Except.ok ints ∧
      cells = [("Values", vals), ("Motivations", mots),
        ("Lifestyle", jGetD d "lifestyle" (Json.str "")),
        ("Interests", ints)] := by
  cases v
  case obj d =>
    simp only [psychoBlock] at h
    split at h
    next e he => simp at h
    next vals hv =>
      split at h
      next e he => simp at h
      next mots hm =>
        split at h
        next e he => simp at h
        next ints hi =>
          simp only [Except.ok.injEq] at h
          exact ⟨d, vals, mots, ints, rfl, hv, hm, hi, h.symm⟩
  all_goals simp [psychoBlock] at h

/-- Inversion for `buildRow`: a produced export row is the fixed
26-column list, with the nested blocks resolved to objects and the leaf
list-or-string cells resolved to their values. -/
theorem buildRow_inv (ci : List (String × String)) (p : List (String × Json))
    (row : List (String × Json))
    (h : buildRow ci (Json.obj p) = Except.ok row) :
    ∃ d1 d2 d3 goals challenges needs pains keyChars vals mots ints,
      jGetD p "demographics" (Json.obj []) = Json.obj d1 ∧
      jGetD p "psychographics" (Json.obj []) = Json.obj d2 ∧
      jGetD p "behavior" (Json.obj []) = Json.obj d3 ∧
      listOrStr (d2.lookup "values") = Except.ok vals ∧
      listOrStr (d2.lookup "motivations") = Except.ok mots ∧
      listOrStr (d2.lookup "interests") = Except.ok ints ∧
      listOrStr (p.lookup "goals") = Except.ok goals ∧
      listOrStr (p.lookup "challenges") = Except.ok challenges ∧
      listOrStr (p.lookup "needs") = Except.ok needs ∧
      listOrStr (p.lookup "pain_points") = Except.ok pains ∧
      listOrStr (p.lookup "key_characteristics") = Except.ok keyChars ∧
      row = [("Client Name", Json.str (ciGet ci "Client Name")),
             ("Product Name", Json.str (ciGet ci "Product Name")),
             ("Persona Name", jGetD p "persona_name" (Json.str "")),
             ("Persona Type", jGetD p "persona_type" (Json.str "")),
             ("Age Range", jGetD d1 "age_range" (Json.str "")),
             ("Gender", jGetD d1 "gender" (Json.str "")),
             ("Location", jGetD d1 "location" (Json.str "")),
             ("Income Level", jGetD d1 "income_level" (Json.str "")),
             ("Net Worth", jGetD d1 "net_worth" (Json.str "")),
             ("Education", jGetD d1 "education" (Json.str "")),
             ("Occupation", jGetD d1 "occupation" (Json.str "")),
             ("Family Status", jGetD d1 "family_status" (Json.str "")),
             ("Values", vals), ("Motivations", mots),
             ("Lifestyle", jGetD d2 "lifestyle" (Json.str "")),
             ("Interests", ints),
             ("Goals", goals), ("Challenges", challenges),
             ("Needs", needs), ("Pain Points", pains),
             ("Research Style", jGetD d3 "research_style" (Json.str "")),
             ("Decision Making", jGetD d3 "decision_making" (Json.str "")),
             ("Communication Preferences",
               jGetD d3 "communication_preferences" (Json.str "")),
             ("Online Behavior", jGetD d3 "online_behavior" (Json.str "")),
             ("Quote", jGetD p "quote" (Json.str "")),
             ("Key Characteristics", keyChars)] := by
  simp only [buildRow] at h
  split at h
  next e he => simp at h
  next demoCells hd =>
    split at h
    next e he => simp at h
    next psyCells hp =>
      split at h
      next e he => simp at h
      next goals hg =>
        split at h
        next e he => simp at h
        next challenges hc =>
          split at h
          next e he => simp at h
          next needs hn =>
            split at h
            next e he => simp at h
            next pains hpp =>
              split at h
              next e he => simp at h
              next behCells hb =>
                split at h
                next e he => simp at h
                next keyChars hk =>
                  obtain ⟨d1, hv1, hc1⟩ := demoBlock_inv _ _ hd
                  obtain ⟨d2, vals, mots, ints, hv2, hval, hmot, hint, hc2⟩ :=
                    psychoBlock_inv _ _ hp
                  obtain ⟨d3, hv3, hc3⟩ := behaviorBlock_inv _ _ hb
                  subst hc1
                  subst hc2
                  subst hc3
                  simp only [Except.ok.injEq, List.cons_append,
                    List.nil_append] at h
                  exact ⟨d1, d2, d3, goals, challenges, needs, pains, keyChars,
                    vals, mots, ints, hv1, hv2, hv3, hval, hmot, hint, hg, hc,
                    hn, hpp, hk, h.symm⟩

/-- Claim C7: in every export row the exporter writes, each list-typed
leaf field (values, motivations, interests, goals, challenges, needs,
pain_points, key_characteristics) whose value is a list of strings is
written to its column joined with the two-character separator `; `,
while a plain-string value is written to the column unchanged. -/
theorem C7_theorem (ci : List (String × String)) (p : List (String × Json))
    (row : List (String × Json))
    (h : buildRow ci (Json.obj p) = Except.ok row) :
    (∀ key col, (key, col) ∈ topListFields →
      (∀ ss : List String, p.lookup key = some (Json.arr (ss.map Json.str)) →
        row.lookup col = some (Json.str (semiJoin ss))) ∧
      (∀ s, p.lookup key = some (Json.str s) →
        row.lookup col = some (Json.str s))) ∧
    (∀ d, jGetD p "psychographics" (Json.obj []) = Json.obj d →
      ∀ key col, (key, col) ∈ psychoListFields →
      (∀ ss : List String, d.lookup key = some (Json.arr (ss.map Json.str)) →
        row.lookup col = some (Json.str (semiJoin ss))) ∧
      (∀ s, d.lookup key = some (Json.str s) →
        row.lookup col = some (Json.str s))) := by
  obtain ⟨d1, d2, d3, goals, challenges, needs, pains, keyChars, vals, mots,
    ints, hv1, hv2, hv3, hval, hmot, hint, hg, hc, hn, hpp, hk, hrow⟩ :=
    buildRow_inv ci p row h
  subst hrow
  constructor
  · intro key col hmem
    fin_cases hmem
    · refine ⟨fun ss hs => ?_, fun s hs => ?_⟩
      · rw [hs] at hg
        have hv := listOrStr_arr_strs ss goals hg
        subst hv
        rfl
      · rw [hs] at hg
        have hv := listOrStr_str s goals hg
        subst hv
        rfl
    · refine ⟨fun ss hs => ?_, fun s hs => ?_⟩
      · rw [hs] at hc
        have hv := listOrStr_arr_strs ss challenges hc
        subst hv
        rfl
      · rw [hs] at hc
        have hv := listOrStr_str s challenges hc
        subst hv
        rfl
    · refine ⟨fun ss hs => ?_, fun s hs => ?_⟩
      · rw [hs] at hn
        have hv := listOrStr_arr_strs ss needs hn
        subst hv
        rfl
      · rw [hs] at hn
        have hv := listOrStr_str s needs hn
        subst hv
        rfl
    · refine ⟨fun ss hs => ?_, fun s hs => ?_⟩
      · rw [hs] at hpp
        have hv := listOrStr_arr_strs ss pains hpp
        subst hv
        rfl
      · rw [hs] at hpp
        have hv := listOrStr_str s pains hpp
        subst hv
        rfl
    · refine ⟨fun ss hs => ?_, fun s hs => ?_⟩
      · rw [hs] at hk
        have hv := listOrStr_arr_strs ss keyChars hk
        subst hv
        rfl
      · rw [hs] at hk
        have hv := listOrStr_str s keyChars hk
        subst hv
        rfl
  · intro d hd
    rw [hv2] at hd
    simp only [Json.obj.injEq] at hd
    subst hd
    intro key col hmem
    fin_cases hmem
    · refine ⟨fun ss hs => ?_, fun s hs => ?_⟩
      · rw [hs] at hval
        have hv := listOrStr_arr_strs ss vals hval
        subst hv
        rfl
      · rw [hs] at hval
        have hv := listOrStr_str s vals hval
        subst hv
        rfl
    · refine ⟨fun ss hs => ?_, fun s hs => ?_⟩
      · rw [hs] at hmot
        have hv := listOrStr_arr_strs ss mots hmot
        subst hv
        rfl
      · rw [hs] at hmot
        have hv := listOrStr_str s mots hmot
        subst hv
        rfl
    · refine ⟨fun ss hs => ?_, fun s hs => ?_⟩
      · rw [hs] at hint
        have hv := listOrStr_arr_strs ss ints hint
        subst hv
        rfl
      · rw [hs] at hint
        have hv := listOrStr_str s ints hint
        subst hv
        rfl

/-- Claim C7 witness: the concrete persona `pEx7Fields` exports with
its goals and psychographics values joined with `; ` and its
string-valued challenges field passed through unchanged. -/
theorem C7_witness :
    buildRow [] (Json.obj pEx7Fields) = Except.ok c7Row ∧
    c7Row.lookup "Goals" = some (Json.str (semiJoin ["G1", "G2"])) ∧
    c7Row.lookup "Challenges" = some (Json.str "just a string") ∧
    c7Row.lookup "Values" = some (Json.str (semiJoin ["speed", "ease"])) :=
  ⟨rfl,
   ((C7_theorem [] pEx7Fields c7Row rfl).1 "goals" "Goals"
     (by simp [topListFields])).1 ["G1", "G2"] rfl,
   ((C7_theorem [] pEx7Fields c7Row rfl).1 "challenges" "Challenges"
     (by simp [topListFields])).2 "just a string" rfl,
   ((C7_theorem [] pEx7Fields c7Row rfl).2 _ rfl "values" "Values"
     (by simp [psychoListFields])).1 ["speed", "ease"] rfl⟩

/-- `.get` on a non-dict demographics value raises `AttributeError`. -/
theorem demoBlock_err (v : Json) (h : isObjB v = false) :
    demoBlock v = Except.error PyErr.attributeError := by
  cases v <;> simp [isObjB] at h ⊢ <;> rfl

/-- `.get` on a non-dict psychographics value raises `AttributeError`. -/
theorem psychoBlock_err (v : Json) (h : isObjB v = false) :
    psychoBlock v = Except.error PyErr.attributeError := by
  cases v <;> simp [isObjB] at h ⊢ <;> rfl

/-- `.get` on a non-dict behavior value raises `AttributeError`. -/
theorem behaviorBlock_err (v : Json) (h : isObjB v = false) :
    behaviorBlock v = Except.error PyErr.attributeError := by
  cases v <;> simp [isObjB] at h ⊢ <;> rfl

/-- A dict-valued demographics block succeeds. -/
theorem demoBlock_ok (v : Json) (h : isObjB v = true) :
    ∃ cells, demoBlock v = Except.ok cells := by
  cases v <;> simp [isObjB] at h
  exact ⟨_, rfl⟩

/-- An object test certifies an object. -/
theorem obj_of_isObjB (v : Json) (h : isObjB v = true) :
    ∃ d, v = Json.obj d := by
  cases v <;> simp [isObjB] at h
  exact ⟨_, rfl⟩

/-- Joining a list of strings never raises. -/
theorem joinSemi_ok_of_all_str (l : List Json) (h : l.all isStrB = true) :
    ∃ s, joinSemi l = Except.ok s := by
  induction l with
  | nil => exact ⟨"", rfl⟩
  | cons x rest ih =>
    simp only [List.all_cons, Bool.and_eq_true] at h
    obtain ⟨hx, hrest⟩ := h
    cases x
    case str s =>
      cases rest with
      | nil => exact ⟨s, rfl⟩
      | cons y rest2 =>
        obtain ⟨t, ht⟩ := ih hrest
        refine ⟨s ++ "; " ++ t, ?_⟩
        rw [joinSemi]
        · rw [ht]
          rfl
        · simp
    all_goals simp [isStrB] at hx

/-- The list-or-string cell never raises on a join-safe value. -/
theorem listOrStr_ok_of_safe (v : Option Json) (h : fieldSafe v = true) :
    ∃ w, listOrStr v = Except.ok w := by
  cases v with
  | none => exact ⟨_, rfl⟩
  | some j =>
    cases j
    case arr l =>
      obtain ⟨s, hs⟩ := joinSemi_ok_of_all_str l (by simpa [fieldSafe] using h)
      exact ⟨Json.str s, by simp [listOrStr, hs]; rfl⟩
    all_goals exact ⟨_, rfl⟩

/-- A bad nested key makes the corresponding defaulted `.get` value a
non-dict. -/
theorem badNested_jGetD (p : List (String × Json)) (h : badNested p = true) :
    isObjB (jGetD p "demographics" (Json.obj [])) = false ∨
    isObjB (jGetD p "psychographics" (Json.obj [])) = false ∨
    isObjB (jGetD p "behavior" (Json.obj [])) = false := by
  simp only [badNested, Bool.or_eq_true] at h
  rcases h with (h | h) | h
  · left
    cases hv : p.lookup "demographics" <;> rw [hv] at h
    · simp at h
    · simp only [jGetD, hv, Option.getD_some]
      simpa using h
  · right; left
    cases hv : p.lookup "psychographics" <;> rw [hv] at h
    · simp at h
    · simp only [jGetD, hv, Option.getD_some]
      simpa using h
  · right; right
    cases hv : p.lookup "behavior" <;> rw [hv] at h
    · simp at h
    · simp only [jGetD, hv, Option.getD_some]
      simpa using h

/-- Core of claim C10: a persona with safe leaf fields and some nested
key present with a non-dict value makes `buildRow` raise
`AttributeError`. -/
theorem buildRow_badNested (ci : List (String × String))
    (p : List (String × Json)) (hleaf : leafSafe p = true)
    (hbad : badNested p = true) :
    buildRow ci (Json.obj p) = Except.error PyErr.attributeError := by
  simp only [leafSafe, Bool.and_eq_true] at hleaf
  obtain ⟨⟨⟨⟨hpsyM, hgo⟩, hch⟩, hnd⟩, hpa⟩ := hleaf
  by_cases hd : isObjB (jGetD p "demographics" (Json.obj [])) = true
  · by_cases hpsy : isObjB (jGetD p "psychographics" (Json.obj [])) = true
    · -- behavior must be the bad one
      have hbeh : isObjB (jGetD p "behavior" (Json.obj [])) = false := by
        rcases badNested_jGetD p hbad with hb | hb | hb
        · rw [hd] at hb; cases hb
        · rw [hpsy] at hb; cases hb
        · exact hb
      obtain ⟨dc, hdc⟩ := demoBlock_ok _ hd
      obtain ⟨d2, hd2⟩ := obj_of_isObjB _ hpsy
      rw [hd2] at hpsyM
      simp only [Bool.and_eq_true] at hpsyM
      obtain ⟨⟨hfv, hfm⟩, hfi⟩ := hpsyM
      obtain ⟨vals, hvals⟩ := listOrStr_ok_of_safe _ hfv
      obtain ⟨mots, hmots⟩ := listOrStr_ok_of_safe _ hfm
      obtain ⟨ints, hints⟩ := listOrStr_ok_of_safe _ hfi
      have hpsyOk : psychoBlock (jGetD p "psychographics" (Json.obj [])) =
          Except.ok [("Values", vals), ("Motivations", mots),
            ("Lifestyle", jGetD d2 "lifestyle" (Json.str "")),
            ("Interests", ints)] := by
        rw [hd2]
        simp [psychoBlock, hvals, hmots, hints]
      obtain ⟨goals, hgoals⟩ := listOrStr_ok_of_safe _ hgo
      obtain ⟨chal, hchal⟩ := listOrStr_ok_of_safe _ hch
      obtain ⟨needs, hneeds⟩ := listOrStr_ok_of_safe _ hnd
      obtain ⟨pains, hpains⟩ := listOrStr_ok_of_safe _ hpa
      simp only [buildRow]
      rw [hdc, hpsyOk, hgoals, hchal, hneeds, hpains,
        behaviorBlock_err _ hbeh]
    · obtain ⟨dc, hdc⟩ := demoBlock_ok _ hd
      simp only [buildRow]
      rw [hdc, psychoBlock_err _ (by simpa using hpsy)]
  · simp only [buildRow]
    rw [demoBlock_err _ (by simpa using hd)]

/-- The per-persona export loop propagates an error of the rest past a
prefix of well-formed personas. -/
theorem exportRows_append_err (ci : List (String × String)) :
    ∀ (pre rest : List Json) (e : PyErr),
      (∀ q ∈ pre, ∃ r, buildRow ci q = Except.ok r) →
      exportRows ci rest = Except.error e →
      exportRows ci (pre ++ rest) = Except.error e := by
  intro pre
  induction pre with
  | nil => intro rest e hpre herr; simpa using herr
  | cons q pre2 ih =>
    intro rest e hpre herr
    obtain ⟨r, hr⟩ := hpre q (by simp)
    have hih := ih rest e (fun q2 hq2 => hpre q2 (by simp [hq2])) herr
    simp only [List.cons_append, exportRows, List.append_eq]
    rw [hr, hih]

/-- Claim C10: if a persona anywhere in the input list has a
`demographics`, `psychographics` or `behavior` key present with a
non-dict value (for example a string), and the personas before it export
cleanly (and its own leaf list fields are join-safe), then
`PersonaCSVExporter.export` raises `AttributeError` and produces no
rows — the exporter's type tolerance does not cover a wrongly-typed
nested object. -/
theorem C10_theorem (ci : List (String × String)) (pre post : List Json)
    (p : List (String × Json))
    (hpre : ∀ q ∈ pre, ∃ r, buildRow ci q = Except.ok r)
    (hleaf : leafSafe p = true) (hbad : badNested p = true) :
    exportPersonas (pre ++ Json.obj p :: post) ci =
      Except.error PyErr.attributeError := by
  have hrow := buildRow_badNested ci p hleaf hbad
  have hrest : exportRows ci (Json.obj p :: post) =
      Except.error PyErr.attributeError := by
    simp only [exportRows]
    rw [hrow]
  have hall := exportRows_append_err ci pre (Json.obj p :: post) _ hpre hrest
  simp only [exportPersonas]
  rw [if_neg (by simp)]
  exact hall

/-- Claim C10 witness: a single persona whose demographics is the
string `35-55` makes export raise `AttributeError`. -/
theorem C10_witness :
    leafSafe pBad10 = true ∧ badNested pBad10 = true ∧
    exportPersonas [Json.obj pBad10] [] =
      Except.error PyErr.attributeError :=
  ⟨by decide, by decide,
   C10_theorem [] [] [] pBad10 (by simp) (by decide) (by decide)⟩

end Personas
